import Mathlib

/-!
Shallow embedding of the accessibility-test runner
(`utils/accessibility.ts`: `runA11yTestAndGenerateReports` and its helpers).

The external collaborators (the axe scan engine, the Playwright page, the
HTML renderer, the filesystem and the clock) are modelled as explicit
inputs: the scan result is a parameter, report-write success is an
environment flag, and the current time is a broken-down UTC datetime.
The runner itself is translated statement by statement; its observable
side effects are recorded as an ordered event trace.
-/

namespace A11y

/-- One violation record as returned by the external engine
(`axe-core`'s `Result`): the runner reads `id`, `description`, `impact`,
`nodes` and `helpUrl`.  `impact` may be absent. -/
structure Violation where
  id : String
  description : String
  impact : Option String
  nodes : List String
  helpUrl : String
  deriving Repr, DecidableEq

/-- The parts of `AxeResults` the runner reads: the violation list
(defensively treated as possibly absent, mirroring `results.violations ?? []`)
and the scanned page URL. -/
structure AxeResults where
  violations : Option (List Violation)
  url : Option String
  deriving Repr, DecidableEq

/-- Per-impact counters, `Record<A11yFailImpact, number>` zero-filled. -/
structure Counts where
  critical : Nat
  serious : Nat
  moderate : Nat
  minor : Nat
  deriving Repr, DecidableEq

/-- The configuration fields of `RunA11yOptions` that drive the runner's
own logic.  `page`, `include`, `exclude`, `tags` and `disableRules` are
only forwarded to the opaque external scan and are not modelled.
Optional fields are `Option`s; `failImpacts` elements are plain strings
because the TypeScript annotation is erased at runtime and the code
validates membership explicitly. -/
structure RunA11yOptions where
  pageDescription : String
  failOnViolations : Option Bool
  failImpacts : Option (List String)
  outputDir : Option String
  generateHtmlReport : Option Bool
  generateJsonReport : Option Bool
  logSummary : Option Bool
  deriving Repr, DecidableEq

/-- `DEFAULT_FAIL_IMPACTS` from the source. -/
def DEFAULT_FAIL_IMPACTS : List String := ["critical", "serious", "moderate", "minor"]

/-- `DEFAULT_OUTPUT_DIR` from the source. -/
def DEFAULT_OUTPUT_DIR : String := "artifacts/accessibility"

/-- JavaScript truthiness of an optional string: `undefined`/absent and
the empty string are falsy. -/
def truthy : Option String → Bool
  | none => false
  | some s => s ≠ ""

/-- `validatePageDescription`: for a string value, `!value` rejects
exactly the empty string (the non-string case is excluded by typing). -/
def validatePageDescriptionOk (value : String) : Bool :=
  value ≠ ""

/-- `path.join`, simplified to separator concatenation (enough for the
claims, which never exercise `..`/absolute-path normalization). -/
def pathJoin (a b : String) : String :=
  a ++ "/" ++ b

/-- `getArtifactsDir`: `path.join(process.cwd(), outputDir ?? DEFAULT_OUTPUT_DIR)`. -/
def getArtifactsDir (cwd : String) (outputDir : Option String) : String :=
  pathJoin cwd (outputDir.getD DEFAULT_OUTPUT_DIR)

/-- The four keys of the `counts` record; `violation.impact in counts`
tests membership here. -/
def impactKeys : List String := ["critical", "serious", "moderate", "minor"]

/-- One loop iteration of `countByImpact`: skip falsy impacts, bump the
matching counter when the impact is a key of the record
(`violation.impact in counts`). -/
def countStep (counts : Counts) (v : Violation) : Counts :=
  if ¬ truthy v.impact then counts
  else if v.impact = some "critical" then { counts with critical := counts.critical + 1 }
  else if v.impact = some "serious" then { counts with serious := counts.serious + 1 }
  else if v.impact = some "moderate" then { counts with moderate := counts.moderate + 1 }
  else if v.impact = some "minor" then { counts with minor := counts.minor + 1 }
  else counts

/-- `countByImpact`: fold the loop over `results.violations ?? []`
starting from the zero-filled record. -/
def countByImpact (results : AxeResults) : Counts :=
  (results.violations.getD []).foldl countStep ⟨0, 0, 0, 0⟩

/-- `filterViolationsByImpact`: empty impact list short-circuits to `[]`;
otherwise keep records with a truthy impact that is a member of the
impact set. -/
def filterViolationsByImpact (results : AxeResults) (impacts : List String) :
    List Violation :=
  if impacts.length = 0 then []
  else (results.violations.getD []).filter
    (fun v => truthy v.impact && impacts.contains (v.impact.getD ""))

/-- `validateFailImpacts`: the offending values, i.e. the elements outside
the four-member enumeration (the source throws iff this is non-empty). -/
def invalidFailImpactsOf (impacts : List String) : List String :=
  impacts.filter (fun impact => ¬ impactKeys.contains impact)

/-- `expectNoViolations`: returns `results.violations?.length ?? 0`
(the console logging is observational only). -/
def expectNoViolations (results : AxeResults) : Nat :=
  (results.violations.getD []).length

/-! ### Timestamps and report file names -/

/-- The decimal digit character for `n % 10`. -/
def digitChar (n : Nat) : Char :=
  Char.ofNat (48 + n % 10)

/-- Fixed-width decimal rendering (width `w`, most significant first),
as produced by `Date.prototype.toISOString` for each padded component. -/
def padDigits : Nat → Nat → List Char
  | 0, _ => []
  | w + 1, n => padDigits w (n / 10) ++ [digitChar n]

/-- A broken-down UTC instant, the data `Date.prototype.toISOString`
prints.  The clock is external; `run` receives one per invocation. -/
structure DateTime where
  year : Nat
  month : Nat
  day : Nat
  hour : Nat
  minute : Nat
  second : Nat
  ms : Nat
  deriving Repr, DecidableEq

/-- Each component fits the width its ISO field prints (a real `Date`
satisfies strictly tighter bounds). -/
def DateTime.Valid (d : DateTime) : Prop :=
  d.year < 10000 ∧ d.month < 100 ∧ d.day < 100 ∧ d.hour < 100 ∧
    d.minute < 100 ∧ d.second < 100 ∧ d.ms < 1000

instance (d : DateTime) : Decidable d.Valid := by
  unfold DateTime.Valid
  infer_instance

/-- `new Date().toISOString()`: the fixed 24-character
`YYYY-MM-DDTHH:MM:SS.sssZ` rendering, as a character list. -/
def DateTime.isoChars (d : DateTime) : List Char :=
  padDigits 4 d.year ++ ['-'] ++ padDigits 2 d.month ++ ['-'] ++
    padDigits 2 d.day ++ ['T'] ++ padDigits 2 d.hour ++ [':'] ++
    padDigits 2 d.minute ++ [':'] ++ padDigits 2 d.second ++ ['.'] ++
    padDigits 3 d.ms ++ ['Z']

/-- `.replace(/[:.]/g, "-")` applied to the timestamp characters. -/
def tsReplace (cs : List Char) : List Char :=
  cs.map (fun c => if c = ':' ∨ c = '.' then '-' else c)

/-- The filename-safe timestamp `ts` of `reportBaseName`. -/
def DateTime.tsChars (d : DateTime) : List Char :=
  tsReplace d.isoChars

/-- JavaScript `\s` restricted to the ASCII whitespace characters (the
Unicode space class is irrelevant to the claims). -/
def isJsWhitespace (c : Char) : Bool :=
  c = ' ' || c = '\t' || c = '\n' || c = '\r' || c = '\x0b' || c = '\x0c'

/-- `.replace(/\s+/g, "-")`, one character at a time: the flag records
whether we are inside a whitespace run (whose first character already
produced the hyphen). -/
def collapseWsAux : Bool → List Char → List Char
  | _, [] => []
  | inRun, c :: rest =>
    if isJsWhitespace c then
      if inRun then collapseWsAux true rest
      else '-' :: collapseWsAux true rest
    else c :: collapseWsAux false rest

/-- `.replace(/\s+/g, "-")`: each maximal whitespace run becomes one
hyphen. -/
def collapseWs (cs : List Char) : List Char :=
  collapseWsAux false cs

/-- Membership in `[a-z0-9_-]` (the characters `.replace(/[^a-z0-9_-]/g, "")`
keeps). -/
def keepChar (c : Char) : Bool :=
  ('a' ≤ c && c ≤ 'z') || ('0' ≤ c && c ≤ '9') || c = '_' || c = '-'

/-- The `normalized` value of `reportBaseName`: lower-case (character-wise,
as `toLowerCase` acts on this ASCII data), collapse whitespace runs to
single hyphens, strip everything outside `[a-z0-9_-]`. -/
def normalizeDescription (s : String) : String :=
  String.mk ((collapseWs (s.data.map Char.toLower)).filter keepChar)

/-- `reportBaseName`, with the clock made explicit. -/
def reportBaseName (pageDescription : String) (now : DateTime) : String :=
  normalizeDescription pageDescription ++ "-" ++ String.mk now.tsChars

/-! ### The runner -/

/-- Which report a write failure came from. -/
inductive ReportKind where
  | html
  | json
  deriving Repr, DecidableEq

/-- The observable side effects of one invocation, in program order. -/
inductive Event where
  | mkdirRecursive (dir : String)
  | scan
  | log (line : String)
  | tryWriteHtml (path : String)
  | tryWriteJson (path : String)
  deriving Repr, DecidableEq

/-- The distinct failure outcomes of `runA11yTestAndGenerateReports`
(each a thrown `Error` in the source, discriminated by its message). -/
inductive RunError where
  | invalidPageDescription
  | invalidFailImpacts (invalid : List String)
  | reportWriteFailure (kind : ReportKind)
  | violationsFound (page : String) (url : Option String)
      (failImpacts : List String) (counts : Counts)
      (htmlPath jsonPath : Option String) (failing : List Violation)
  deriving Repr, DecidableEq

/-- The spec's `InvalidConfiguration` kind covers the missing-description
and out-of-enumeration-`failImpacts` errors. -/
def RunError.isInvalidConfiguration : RunError → Bool
  | .invalidPageDescription => true
  | .invalidFailImpacts _ => true
  | _ => false

/-- The spec's `AccessibilityViolationsFound` kind. -/
def RunError.isViolationsFound : RunError → Bool
  | .violationsFound _ _ _ _ _ _ _ => true
  | _ => false

/-- Report-file write attempts (the only file writes the runner issues). -/
def Event.isReportWrite : Event → Bool
  | .tryWriteHtml _ => true
  | .tryWriteJson _ => true
  | _ => false

/-- The external collaborators of one invocation: working directory,
clock reading, and whether each report write would succeed. -/
structure Env where
  cwd : String
  now : DateTime
  htmlWriteOk : Bool
  jsonWriteOk : Bool
  deriving Repr, DecidableEq

/-- The `[A11Y] ...` console summary line. -/
def summaryLine (desc : String) (total : Nat) (c : Counts) : String :=
  "[A11Y] " ++ desc ++ " -> total=" ++ toString total ++
    " (critical=" ++ toString c.critical ++ ", serious=" ++ toString c.serious ++
    ", moderate=" ++ toString c.moderate ++ ", minor=" ++ toString c.minor ++ ")"

/-- The report block of the runner (`if (totalViolations > 0) { ... }`):
sequentially attempt the HTML then the JSON report, each unless its flag
is literally `false`; a throwing write aborts the block with
`reportWriteFailure`.  Returns the attempt trace and, on success, the
`htmlPath`/`jsonPath` values. -/
def reportPhase (opts : RunA11yOptions) (results : AxeResults) (env : Env)
    (dir : String) : List Event × Except RunError (Option String × Option String) :=
  if (results.violations.getD []).length > 0 then
    let base := reportBaseName opts.pageDescription env.now
    let htmlFile := pathJoin dir (base ++ ".html")
    let jsonFile := pathJoin dir (base ++ ".json")
    if opts.generateHtmlReport = some false then
      if opts.generateJsonReport = some false then ([], .ok (none, none))
      else if env.jsonWriteOk then
        ([Event.tryWriteJson jsonFile], .ok (none, some jsonFile))
      else ([Event.tryWriteJson jsonFile], .error (.reportWriteFailure .json))
    else
      if env.htmlWriteOk then
        if opts.generateJsonReport = some false then
          ([Event.tryWriteHtml htmlFile], .ok (some htmlFile, none))
        else if env.jsonWriteOk then
          ([Event.tryWriteHtml htmlFile, Event.tryWriteJson jsonFile],
            .ok (some htmlFile, some jsonFile))
        else ([Event.tryWriteHtml htmlFile, Event.tryWriteJson jsonFile],
          .error (.reportWriteFailure .json))
      else ([Event.tryWriteHtml htmlFile], .error (.reportWriteFailure .html))
  else ([], .ok (none, none))

/-- The fail logic of the runner (`validateFailImpacts` followed by the
`if (opts.failOnViolations)` block): resolve `failImpacts` to its
default, throw on invalid entries, then throw the violations-found error
when failing violations exist, else return the results. -/
def failDecision (opts : RunA11yOptions) (results : AxeResults) (counts : Counts)
    (htmlPath jsonPath : Option String) : Except RunError AxeResults :=
  let failImpacts := opts.failImpacts.getD DEFAULT_FAIL_IMPACTS
  let invalid := invalidFailImpactsOf failImpacts
  if invalid.length > 0 then .error (.invalidFailImpacts invalid)
  else if opts.failOnViolations.getD false then
    let failing := filterViolationsByImpact results failImpacts
    if failing.length > 0 then
      .error (.violationsFound opts.pageDescription results.url
        failImpacts counts htmlPath jsonPath failing)
    else .ok results
  else .ok results

/-- `runA11yTestAndGenerateReports`, statement by statement.  The scan
result is an input (the engine is external); the pair returned is the
event trace in program order and the outcome (`.ok` = the function
returns `results`, `.error` = the corresponding `throw`). -/
def runA11yTestAndGenerateReports (opts : RunA11yOptions) (results : AxeResults)
    (env : Env) : List Event × Except RunError AxeResults :=
  if ¬ validatePageDescriptionOk opts.pageDescription then
    ([], .error .invalidPageDescription)
  else
    let dir := getArtifactsDir env.cwd opts.outputDir
    let totalViolations := (results.violations.getD []).length
    let counts := countByImpact results
    let logTrace :=
      if opts.logSummary = some false then []
      else [Event.log (summaryLine opts.pageDescription totalViolations counts)]
    let pre := Event.mkdirRecursive dir :: Event.scan :: logTrace
    match reportPhase opts results env dir with
    | (tr, .error e) => (pre ++ tr, .error e)
    | (tr, .ok (htmlPath, jsonPath)) =>
      (pre ++ tr, failDecision opts results counts htmlPath jsonPath)

/-- Modelled from the spec: the create-directory-recursive filesystem
capability (§5, §6) consumed by `ensureDir` (`fs.mkdir(dir, recursive)`),
which is external library code not in the repository.  It is total —
create-if-absent, never an error when the directory already exists. -/
def fsMkdirRecursive (dirs : List String) (dir : String) : List String :=
  if dir ∈ dirs then dirs else dir :: dirs

/-! ### Derived notions used by the statements -/

/-- How many records of the result carry exactly the given severity. -/
def impactCount (results : AxeResults) (level : String) : Nat :=
  (results.violations.getD []).countP (fun v => decide (v.impact = some level))

/-- A record whose severity is one of the four known levels (exactly the
records `countByImpact` places in some bucket). -/
def recognizedImpact (v : Violation) : Bool :=
  v.impact = some "critical" || v.impact = some "serious" ||
    v.impact = some "moderate" || v.impact = some "minor"

/-- The sum of the four per-severity buckets. -/
def sumCounts (c : Counts) : Nat :=
  c.critical + c.serious + c.moderate + c.minor

/-- JSON report write attempts only. -/
def Event.isJsonWrite : Event → Bool
  | .tryWriteJson _ => true
  | _ => false

/-- Byte-wise (code-point-wise) lexicographic strict order on character
lists — the order in which report filenames sort. -/
def charListLt : List Char → List Char → Bool
  | _, [] => false
  | [], _ :: _ => true
  | a :: as, b :: bs =>
    if a < b then true
    else if a = b then charListLt as bs
    else false

/-- Chronological order on broken-down instants: lexicographic on
(year, month, day, hour, minute, second, millisecond). -/
def dtLt (a b : DateTime) : Prop :=
  a.year < b.year ∨ (a.year = b.year ∧
    (a.month < b.month ∨ (a.month = b.month ∧
      (a.day < b.day ∨ (a.day = b.day ∧
        (a.hour < b.hour ∨ (a.hour = b.hour ∧
          (a.minute < b.minute ∨ (a.minute = b.minute ∧
            (a.second < b.second ∨ (a.second = b.second ∧
              a.ms < b.ms)))))))))))

instance (a b : DateTime) : Decidable (dtLt a b) := by
  unfold dtLt
  infer_instance

/-! ### Concrete fixtures -/

/-- A critical-impact violation record. -/
def vCritical1 : Violation :=
  ⟨"image-alt", "Images must have alternate text", some "critical",
    ["img.hero"], "https://dequeuniversity.test/image-alt"⟩

/-- A second critical-impact violation record. -/
def vCritical2 : Violation :=
  ⟨"button-name", "Buttons must have discernible text", some "critical",
    ["button.cta"], "https://dequeuniversity.test/button-name"⟩

/-- A record whose severity is outside the four known levels. -/
def vUnknownImpact : Violation :=
  ⟨"custom-rule", "Engine extension entry", some "unknown",
    ["div.widget"], "https://dequeuniversity.test/custom-rule"⟩

/-- A serious-impact violation record. -/
def vSerious1 : Violation :=
  ⟨"label", "Form elements must have labels", some "serious",
    ["input.email"], "https://dequeuniversity.test/label"⟩

/-- A scan result with severity sequence [critical, critical, unknown, serious]. -/
def sampleResults : AxeResults :=
  ⟨some [vCritical1, vCritical2, vUnknownImpact, vSerious1],
    some "https://example.test/page"⟩

/-- A clean scan result. -/
def emptyResults : AxeResults := ⟨some [], none⟩

/-- A fixed clock reading. -/
def sampleNow : DateTime := ⟨2024, 5, 17, 9, 30, 5, 123⟩

/-- An environment where both report writes succeed. -/
def okEnv : Env := ⟨"/proj", sampleNow, true, true⟩

/-- An environment where the HTML report write throws. -/
def htmlFailEnv : Env := ⟨"/proj", sampleNow, false, true⟩

/-- A configuration failing on critical violations only. -/
def baseOpts : RunA11yOptions :=
  ⟨"My Page! 2024", some true, some ["critical"], none, none, none, none⟩

/-- `baseOpts` with a `failImpacts` entry outside the enumeration. -/
def bogusOpts : RunA11yOptions :=
  { baseOpts with failImpacts := some ["bogus"] }

/-- The failing subset attached to a violations-found outcome, if the
outcome is one. -/
def failingOf : Except RunError AxeResults → Option (List Violation)
  | .error (.violationsFound _ _ _ _ _ _ failing) => some failing
  | _ => none

/-- The ten decimal digit characters, indexed. -/
def dChar (i : Fin 10) : Char :=
  Char.ofNat (48 + i.val)

instance {ε α : Type} [DecidableEq ε] [DecidableEq α] : DecidableEq (Except ε α) :=
  fun a b =>
    match a, b with
    | .ok x, .ok y => decidable_of_iff (x = y) (by simp)
    | .error x, .error y => decidable_of_iff (x = y) (by simp)
    | .ok _, .error _ => isFalse (fun h => Except.noConfusion h)
    | .error _, .ok _ => isFalse (fun h => Except.noConfusion h)

/-! ### Structural lemmas about the runner -/

lemma validate_ok (s : String) (h : s ≠ "") : validatePageDescriptionOk s = true := by
  simp [validatePageDescriptionOk, h]

lemma run_of_reportError (opts : RunA11yOptions) (results : AxeResults) (env : Env)
    (tr : List Event) (e : RunError)
    (h : opts.pageDescription ≠ "")
    (hrp : reportPhase opts results env (getArtifactsDir env.cwd opts.outputDir) = (tr, .error e)) :
    runA11yTestAndGenerateReports opts results env =
      (Event.mkdirRecursive (getArtifactsDir env.cwd opts.outputDir) :: Event.scan ::
        ((if opts.logSummary = some false then []
          else [Event.log (summaryLine opts.pageDescription
            (results.violations.getD []).length (countByImpact results))]) ++ tr),
       .error e) := by
  unfold runA11yTestAndGenerateReports
  simp [validate_ok _ h, hrp]

lemma run_of_reportOk (opts : RunA11yOptions) (results : AxeResults) (env : Env)
    (tr : List Event) (hp jp : Option String)
    (h : opts.pageDescription ≠ "")
    (hrp : reportPhase opts results env (getArtifactsDir env.cwd opts.outputDir) = (tr, .ok (hp, jp))) :
    runA11yTestAndGenerateReports opts results env =
      (Event.mkdirRecursive (getArtifactsDir env.cwd opts.outputDir) :: Event.scan ::
        ((if opts.logSummary = some false then []
          else [Event.log (summaryLine opts.pageDescription
            (results.violations.getD []).length (countByImpact results))]) ++ tr),
       failDecision opts results (countByImpact results) hp jp) := by
  unfold runA11yTestAndGenerateReports
  simp [validate_ok _ h, hrp]

lemma reportPhase_zero (opts : RunA11yOptions) (results : AxeResults) (env : Env)
    (dir : String) (h : (results.violations.getD []).length = 0) :
    reportPhase opts results env dir = ([], .ok (none, none)) := by
  simp [reportPhase, h]

lemma reportPhase_snd_ok_of_writesOk (opts : RunA11yOptions) (results : AxeResults)
    (env : Env) (dir : String)
    (hh : env.htmlWriteOk = true) (hj : env.jsonWriteOk = true) :
    ∃ tr hp jp, reportPhase opts results env dir = (tr, .ok (hp, jp)) := by
  unfold reportPhase
  split_ifs <;> simp_all

lemma reportPhase_html_fail (opts : RunA11yOptions) (results : AxeResults)
    (env : Env) (dir : String)
    (hv : (results.violations.getD []).length > 0)
    (hflag : opts.generateHtmlReport ≠ some false)
    (hfail : env.htmlWriteOk = false) :
    reportPhase opts results env dir =
      ([Event.tryWriteHtml (pathJoin dir
        (reportBaseName opts.pageDescription env.now ++ ".html"))],
       .error (.reportWriteFailure .html)) := by
  simp [reportPhase, hv, hflag, hfail]

/-! ### Counting lemmas -/

lemma foldl_countStep_eq (l : List Violation) :
    ∀ c : Counts, l.foldl countStep c =
      ⟨c.critical + l.countP (fun v => decide (v.impact = some "critical")),
       c.serious + l.countP (fun v => decide (v.impact = some "serious")),
       c.moderate + l.countP (fun v => decide (v.impact = some "moderate")),
       c.minor + l.countP (fun v => decide (v.impact = some "minor"))⟩ := by
  induction l with
  | nil => intro c; simp [List.countP_nil]
  | cons v t ih =>
    intro c
    rw [List.foldl_cons, ih, List.countP_cons, List.countP_cons,
      List.countP_cons, List.countP_cons]
    unfold countStep
    rcases hv : v.impact with _ | s
    · simp [hv, truthy]
    · by_cases h1 : s = "critical"
      · subst h1; simp [hv, truthy]; omega
      · by_cases h2 : s = "serious"
        · subst h2; simp [hv, truthy]; omega
        · by_cases h3 : s = "moderate"
          · subst h3; simp [hv, truthy]; omega
          · by_cases h4 : s = "minor"
            · subst h4; simp [hv, truthy]; omega
            · simp [hv, truthy, h1, h2, h3, h4]

lemma countByImpact_eq (results : AxeResults) :
    countByImpact results =
      ⟨impactCount results "critical", impactCount results "serious",
       impactCount results "moderate", impactCount results "minor"⟩ := by
  unfold countByImpact impactCount
  rw [foldl_countStep_eq]
  simp

lemma countP_recognized_split (l : List Violation) :
    l.countP (fun v => decide (v.impact = some "critical")) +
      l.countP (fun v => decide (v.impact = some "serious")) +
      l.countP (fun v => decide (v.impact = some "moderate")) +
      l.countP (fun v => decide (v.impact = some "minor")) =
      l.countP recognizedImpact := by
  induction l with
  | nil => simp [List.countP_nil]
  | cons v t ih =>
    rw [List.countP_cons, List.countP_cons, List.countP_cons, List.countP_cons,
      List.countP_cons]
    rcases hv : v.impact with _ | s
    · simp [hv, recognizedImpact]; omega
    · by_cases h1 : s = "critical"
      · subst h1; simp [hv, recognizedImpact]; omega
      · by_cases h2 : s = "serious"
        · subst h2; simp [hv, recognizedImpact]; omega
        · by_cases h3 : s = "moderate"
          · subst h3; simp [hv, recognizedImpact]; omega
          · by_cases h4 : s = "minor"
            · subst h4; simp [hv, recognizedImpact]; omega
            · simp [hv, recognizedImpact, h1, h2, h3, h4]; omega

lemma sumCounts_countByImpact (results : AxeResults) :
    sumCounts (countByImpact results) =
      (results.violations.getD []).countP recognizedImpact := by
  rw [countByImpact_eq]
  unfold sumCounts
  exact countP_recognized_split _

lemma countP_recognized_lt (l : List Violation)
    (h : ∃ v ∈ l, recognizedImpact v = false) :
    l.countP recognizedImpact < l.length := by
  have h2 : 0 < l.countP (fun v => !recognizedImpact v) := by
    rw [List.countP_pos_iff]
    rcases h with ⟨v, hm, hf⟩
    exact ⟨v, hm, by simp [hf]⟩
  have h3 := List.length_eq_countP_add_countP recognizedImpact l
  have h4 : l.countP (fun v => !recognizedImpact v) =
      l.countP (fun v => ¬recognizedImpact v) := by
    apply List.countP_congr
    intro v _
    simp
  omega

lemma reportPhase_error_kind (opts : RunA11yOptions) (results : AxeResults)
    (env : Env) (dir : String) (tr : List Event) (e : RunError)
    (hrp : reportPhase opts results env dir = (tr, .error e)) :
    ∃ k, e = .reportWriteFailure k := by
  unfold reportPhase at hrp
  split_ifs at hrp <;> simp_all <;> exact ⟨_, hrp.2.symm⟩

lemma failDecision_empty_failImpacts (opts : RunA11yOptions) (results : AxeResults)
    (counts : Counts) (hp jp : Option String) (h : opts.failImpacts = some []) :
    failDecision opts results counts hp jp = .ok results := by
  unfold failDecision
  simp [h, invalidFailImpactsOf, filterViolationsByImpact]

/-! ### Claims -/

/-- C5: the per-severity aggregation tallies, for each of the four levels,
exactly the records carrying that severity (so a record with an absent or
unrecognized severity lands in none of the four buckets), and on the
severity sequence [critical, critical, unknown, serious] it yields
critical=2, serious=1, moderate=0, minor=0. -/
theorem countByImpact_per_level :
    (∀ results : AxeResults,
      countByImpact results =
        ⟨impactCount results "critical", impactCount results "serious",
         impactCount results "moderate", impactCount results "minor"⟩) ∧
    countByImpact sampleResults = ⟨2, 1, 0, 0⟩ ∧
    recognizedImpact vUnknownImpact = false := by
  refine ⟨countByImpact_eq, by decide, by decide⟩

/-- C10: `expectNoViolations` returns the number of all violation records
(including those with absent or unrecognized severity) — the same total
the runner logs — so the sum of the four per-severity buckets is at most
that total, and strictly less whenever some record has no recognized
severity. -/
theorem expectNoViolations_total :
    (∀ results : AxeResults,
      expectNoViolations results = (results.violations.getD []).length) ∧
    (∀ results : AxeResults,
      sumCounts (countByImpact results) ≤ expectNoViolations results) ∧
    (∀ results : AxeResults,
      (∃ v ∈ results.violations.getD [], recognizedImpact v = false) →
      sumCounts (countByImpact results) < expectNoViolations results) ∧
    (∀ (opts : RunA11yOptions) (results : AxeResults) (env : Env),
      opts.pageDescription ≠ "" → opts.logSummary ≠ some false →
      Event.log (summaryLine opts.pageDescription (expectNoViolations results)
        (countByImpact results)) ∈
        (runA11yTestAndGenerateReports opts results env).fst) := by
  refine ⟨fun _ => rfl, ?_, ?_, ?_⟩
  · intro results
    rw [sumCounts_countByImpact]
    exact List.countP_le_length _
  · intro results h
    rw [sumCounts_countByImpact]
    exact countP_recognized_lt _ h
  · intro opts results env hd hlog
    rcases hrp : reportPhase opts results env (getArtifactsDir env.cwd opts.outputDir)
      with ⟨tr, r⟩
    cases r with
    | error e =>
      rw [run_of_reportError _ _ _ _ _ hd hrp]
      simp [hlog, expectNoViolations]
    | ok p =>
      rcases p with ⟨hp, jp⟩
      rw [run_of_reportOk _ _ _ _ _ _ hd hrp]
      simp [hlog, expectNoViolations]

/-- C10 witness: on the sample scan result (which has an unrecognized
severity) the bucket sum is strictly below the total, and the runner logs
that total. -/
theorem expectNoViolations_total_witness :
    (∃ v ∈ sampleResults.violations.getD [], recognizedImpact v = false) ∧
    sumCounts (countByImpact sampleResults) < expectNoViolations sampleResults ∧
    baseOpts.pageDescription ≠ "" ∧ baseOpts.logSummary ≠ some false ∧
    Event.log (summaryLine baseOpts.pageDescription (expectNoViolations sampleResults)
      (countByImpact sampleResults)) ∈
      (runA11yTestAndGenerateReports baseOpts sampleResults okEnv).fst := by
  refine ⟨⟨vUnknownImpact, by decide, by decide⟩, ?_, by decide, by decide, ?_⟩
  · exact expectNoViolations_total.2.2.1 sampleResults ⟨vUnknownImpact, by decide, by decide⟩
  · exact expectNoViolations_total.2.2.2 baseOpts sampleResults okEnv (by decide) (by decide)

/-- C4: if the scan returns zero violations, no report file write is ever
attempted, whatever the report generation and fail flags are. -/
theorem run_zero_violations_writes_nothing :
    ∀ (opts : RunA11yOptions) (results : AxeResults) (env : Env),
      (results.violations.getD []).length = 0 →
      ∀ e ∈ (runA11yTestAndGenerateReports opts results env).fst,
        e.isReportWrite = false := by
  intro opts results env h e he
  by_cases hd : opts.pageDescription = ""
  · unfold runA11yTestAndGenerateReports at he
    simp [validatePageDescriptionOk, hd] at he
  · rw [run_of_reportOk opts results env [] none none hd
      (reportPhase_zero _ _ _ _ h)] at he
    simp at he
    rcases he with rfl | rfl | he
    · rfl
    · rfl
    · rcases he with ⟨hcond, rfl⟩
      rfl

/-- C4 witness: a clean scan with all report flags at their defaults and
`failOnViolations` set produces a write-free trace. -/
theorem run_zero_violations_writes_nothing_witness :
    (emptyResults.violations.getD []).length = 0 ∧
    ∀ e ∈ (runA11yTestAndGenerateReports baseOpts emptyResults okEnv).fst,
      e.isReportWrite = false :=
  ⟨by decide, run_zero_violations_writes_nothing baseOpts emptyResults okEnv (by decide)⟩

/-- C3: an empty `failImpacts` collection makes the failing subset empty,
so the run never raises the violations-found error — and (when the report
writes succeed) returns the scan result — even with `failOnViolations`
set and violations present. -/
theorem run_empty_failImpacts_never_violationsFound :
    ∀ (opts : RunA11yOptions) (results : AxeResults) (env : Env),
      opts.failImpacts = some [] →
      filterViolationsByImpact results [] = [] ∧
      (∀ e, (runA11yTestAndGenerateReports opts results env).snd = .error e →
        e.isViolationsFound = false) ∧
      (opts.pageDescription ≠ "" → env.htmlWriteOk = true → env.jsonWriteOk = true →
        (runA11yTestAndGenerateReports opts results env).snd = .ok results) := by
  intro opts results env hfi
  refine ⟨rfl, ?_, ?_⟩
  · intro e he
    by_cases hd : opts.pageDescription = ""
    · unfold runA11yTestAndGenerateReports at he
      simp [validatePageDescriptionOk, hd] at he
      subst he
      rfl
    · rcases hrp : reportPhase opts results env (getArtifactsDir env.cwd opts.outputDir)
        with ⟨tr, r⟩
      cases r with
      | error e2 =>
        rw [run_of_reportError _ _ _ _ _ hd hrp] at he
        simp at he
        obtain ⟨k, rfl⟩ := reportPhase_error_kind _ _ _ _ _ _ hrp
        subst he
        rfl
      | ok p =>
        rcases p with ⟨hp, jp⟩
        rw [run_of_reportOk _ _ _ _ _ _ hd hrp] at he
        rw [failDecision_empty_failImpacts _ _ _ _ _ hfi] at he
        simp at he
  · intro hd hh hj
    obtain ⟨tr, hp, jp, hrp⟩ := reportPhase_snd_ok_of_writesOk opts results env _ hh hj
    rw [run_of_reportOk _ _ _ _ _ _ hd hrp]
    exact congrArg Prod.snd (congrArg _ (failDecision_empty_failImpacts opts results _ hp jp hfi))

/-- C3 witness: a scan with violations, `failOnViolations: true` and
`failImpacts: []` returns normally. -/
theorem run_empty_failImpacts_never_violationsFound_witness :
    filterViolationsByImpact sampleResults [] = [] ∧
    (runA11yTestAndGenerateReports { baseOpts with failImpacts := some [] }
      sampleResults okEnv).snd = .ok sampleResults := by
  have h := run_empty_failImpacts_never_violationsFound
    { baseOpts with failImpacts := some [] } sampleResults okEnv rfl
  exact ⟨h.1, h.2.2 (by decide) rfl rfl⟩

/-- C9: whenever description validation passes, the recursive creation of
the output directory is the first effect and precedes the scan — also for
clean scans and with both report types disabled — and the modelled
create-directory-recursive capability is a no-op (never an error) when
the directory already exists. -/
theorem run_mkdir_before_scan :
    (∀ (opts : RunA11yOptions) (results : AxeResults) (env : Env),
      opts.pageDescription ≠ "" →
      (runA11yTestAndGenerateReports opts results env).fst.take 2 =
        [Event.mkdirRecursive (getArtifactsDir env.cwd opts.outputDir), Event.scan]) ∧
    (∀ (dirs : List String) (dir : String), dir ∈ dirs →
      fsMkdirRecursive dirs dir = dirs) := by
  constructor
  · intro opts results env h
    rcases hrp : reportPhase opts results env (getArtifactsDir env.cwd opts.outputDir)
      with ⟨tr, r⟩
    cases r with
    | error e =>
      rw [run_of_reportError _ _ _ _ _ h hrp]
      rfl
    | ok p =>
      rcases p with ⟨hp, jp⟩
      rw [run_of_reportOk _ _ _ _ _ _ h hrp]
      rfl
  · intro dirs dir h
    simp [fsMkdirRecursive, h]

lemma failDecision_invalid (opts : RunA11yOptions) (results : AxeResults)
    (counts : Counts) (hp jp : Option String)
    (h : invalidFailImpactsOf (opts.failImpacts.getD DEFAULT_FAIL_IMPACTS) ≠ []) :
    failDecision opts results counts hp jp =
      .error (.invalidFailImpacts
        (invalidFailImpactsOf (opts.failImpacts.getD DEFAULT_FAIL_IMPACTS))) := by
  have hpos := List.length_pos.mpr h
  simp [failDecision, hpos]

/-- C1 counterexample: with `failImpacts = ["bogus"]` (and a valid page
description) the runner does raise the invalid-configuration error, but
the scan engine has been invoked and two report files have been written
before it is raised — the error is not synchronous-before-scan-and-I/O. -/
theorem run_invalid_failImpacts_scan_invoked_cex :
    (runA11yTestAndGenerateReports bogusOpts sampleResults okEnv).snd =
      .error (.invalidFailImpacts ["bogus"]) ∧
    Event.scan ∈ (runA11yTestAndGenerateReports bogusOpts sampleResults okEnv).fst ∧
    (runA11yTestAndGenerateReports bogusOpts sampleResults okEnv).fst.countP
      Event.isReportWrite = 2 := by
  decide

/-- C1 amended: a configuration whose `failImpacts` contains values outside
the enumeration makes `run` raise the invalid-configuration error naming
the offending values (when the description is valid and the report writes
succeed), but only after the scan engine has run: the scan event is in
the emitted trace. -/
theorem run_invalid_failImpacts_raises_after_scan :
    ∀ (opts : RunA11yOptions) (results : AxeResults) (env : Env),
      opts.pageDescription ≠ "" →
      env.htmlWriteOk = true → env.jsonWriteOk = true →
      invalidFailImpactsOf (opts.failImpacts.getD DEFAULT_FAIL_IMPACTS) ≠ [] →
      (runA11yTestAndGenerateReports opts results env).snd =
        .error (.invalidFailImpacts
          (invalidFailImpactsOf (opts.failImpacts.getD DEFAULT_FAIL_IMPACTS))) ∧
      Event.scan ∈ (runA11yTestAndGenerateReports opts results env).fst := by
  intro opts results env hd hh hj hinv
  obtain ⟨tr, hp, jp, hrp⟩ := reportPhase_snd_ok_of_writesOk opts results env _ hh hj
  rw [run_of_reportOk _ _ _ _ _ _ hd hrp]
  exact ⟨failDecision_invalid _ _ _ _ _ hinv, by simp⟩

/-- C1 amended witness. -/
theorem run_invalid_failImpacts_raises_after_scan_witness :
    bogusOpts.pageDescription ≠ "" ∧
    invalidFailImpactsOf (bogusOpts.failImpacts.getD DEFAULT_FAIL_IMPACTS) ≠ [] ∧
    ((runA11yTestAndGenerateReports bogusOpts emptyResults okEnv).snd =
      .error (.invalidFailImpacts
        (invalidFailImpactsOf (bogusOpts.failImpacts.getD DEFAULT_FAIL_IMPACTS))) ∧
     Event.scan ∈ (runA11yTestAndGenerateReports bogusOpts emptyResults okEnv).fst) := by
  refine ⟨by decide, by decide, ?_⟩
  exact run_invalid_failImpacts_raises_after_scan bogusOpts emptyResults okEnv
    (by decide) rfl rfl (by decide)

/-- C8 counterexample: a configuration with a non-empty `pageDescription`
but an out-of-enumeration `failImpacts` entry still makes `run` raise an
invalid-configuration error. -/
theorem run_nonempty_description_invalid_config_cex :
    bogusOpts.pageDescription ≠ "" ∧
    (runA11yTestAndGenerateReports bogusOpts emptyResults okEnv).snd =
      .error (.invalidFailImpacts ["bogus"]) ∧
    RunError.isInvalidConfiguration (.invalidFailImpacts ["bogus"]) = true := by
  refine ⟨by decide, by decide, rfl⟩

/-- C8 amended: for every configuration whose `pageDescription` is
non-empty and whose resolved `failImpacts` stay within the four-member
enumeration, `run` never raises an invalid-configuration error. -/
theorem run_valid_config_no_invalidConfiguration :
    ∀ (opts : RunA11yOptions) (results : AxeResults) (env : Env),
      opts.pageDescription ≠ "" →
      invalidFailImpactsOf (opts.failImpacts.getD DEFAULT_FAIL_IMPACTS) = [] →
      ∀ e, (runA11yTestAndGenerateReports opts results env).snd = .error e →
        e.isInvalidConfiguration = false := by
  intro opts results env hd hval e he
  rcases hrp : reportPhase opts results env (getArtifactsDir env.cwd opts.outputDir)
    with ⟨tr, r⟩
  cases r with
  | error e2 =>
    rw [run_of_reportError _ _ _ _ _ hd hrp] at he
    simp at he
    obtain ⟨k, rfl⟩ := reportPhase_error_kind _ _ _ _ _ _ hrp
    subst he
    rfl
  | ok p =>
    rcases p with ⟨hp, jp⟩
    rw [run_of_reportOk _ _ _ _ _ _ hd hrp] at he
    simp only [failDecision, hval] at he
    by_cases hf : opts.failOnViolations.getD false
    · by_cases hl : filterViolationsByImpact results
        (opts.failImpacts.getD DEFAULT_FAIL_IMPACTS) = []
      · simp [hf, hl] at he
      · have hpos := List.length_pos.mpr hl
        simp [hf, hpos] at he
        subst he
        rfl
    · simp [hf] at he

/-- C8 amended witness. -/
theorem run_valid_config_no_invalidConfiguration_witness :
    baseOpts.pageDescription ≠ "" ∧
    invalidFailImpactsOf (baseOpts.failImpacts.getD DEFAULT_FAIL_IMPACTS) = [] ∧
    ((runA11yTestAndGenerateReports baseOpts sampleResults okEnv).snd =
      .error (.violationsFound baseOpts.pageDescription sampleResults.url ["critical"]
        (countByImpact sampleResults)
        (some "/proj/artifacts/accessibility/my-page-2024-2024-05-17T09-30-05-123Z.html")
        (some "/proj/artifacts/accessibility/my-page-2024-2024-05-17T09-30-05-123Z.json")
        [vCritical1, vCritical2]) →
     RunError.isInvalidConfiguration (.violationsFound baseOpts.pageDescription
        sampleResults.url ["critical"] (countByImpact sampleResults)
        (some "/proj/artifacts/accessibility/my-page-2024-2024-05-17T09-30-05-123Z.html")
        (some "/proj/artifacts/accessibility/my-page-2024-2024-05-17T09-30-05-123Z.json")
        [vCritical1, vCritical2]) = false) := by
  refine ⟨by decide, by decide, ?_⟩
  exact run_valid_config_no_invalidConfiguration baseOpts sampleResults okEnv
    (by decide) (by decide) _

/-- C2: with a valid configuration and succeeding report writes, `run`
raises the violations-found error exactly when `failOnViolations` is set
and the failing subset (the records whose severity is in `failImpacts`)
is non-empty — and the raised error carries exactly that subset;
otherwise it returns the scan result.  On the sample scan
(critical×2, serious×1) with `failImpacts = [critical]` the attached
subset has exactly 2 entries. -/
theorem run_violationsFound_iff :
    (∀ (opts : RunA11yOptions) (results : AxeResults) (env : Env),
      opts.pageDescription ≠ "" →
      env.htmlWriteOk = true → env.jsonWriteOk = true →
      invalidFailImpactsOf (opts.failImpacts.getD DEFAULT_FAIL_IMPACTS) = [] →
      failingOf (runA11yTestAndGenerateReports opts results env).snd =
        (if opts.failOnViolations.getD false ∧
            filterViolationsByImpact results (opts.failImpacts.getD DEFAULT_FAIL_IMPACTS) ≠ []
         then some (filterViolationsByImpact results (opts.failImpacts.getD DEFAULT_FAIL_IMPACTS))
         else none) ∧
      (¬(opts.failOnViolations.getD false ∧
          filterViolationsByImpact results (opts.failImpacts.getD DEFAULT_FAIL_IMPACTS) ≠ []) →
        (runA11yTestAndGenerateReports opts results env).snd = .ok results)) ∧
    failingOf (runA11yTestAndGenerateReports baseOpts sampleResults okEnv).snd =
      some [vCritical1, vCritical2] ∧
    [vCritical1, vCritical2].length = 2 := by
  refine ⟨?_, by decide, rfl⟩
  intro opts results env hd hh hj hval
  obtain ⟨tr, hp, jp, hrp⟩ := reportPhase_snd_ok_of_writesOk opts results env _ hh hj
  rw [run_of_reportOk _ _ _ _ _ _ hd hrp]
  constructor
  · by_cases hf : opts.failOnViolations.getD false
    · by_cases hl : filterViolationsByImpact results
        (opts.failImpacts.getD DEFAULT_FAIL_IMPACTS) = []
      · simp [failDecision, hval, hf, hl, failingOf]
      · have hpos := List.length_pos.mpr hl
        simp [failDecision, hval, hf, hpos, failingOf, hl]
    · simp [failDecision, hval, hf, failingOf]
  · intro hno
    by_cases hf : opts.failOnViolations.getD false
    · have hl : filterViolationsByImpact results
          (opts.failImpacts.getD DEFAULT_FAIL_IMPACTS) = [] := by
        by_contra hc
        exact hno ⟨hf, hc⟩
      simp [failDecision, hval, hf, hl]
    · simp [failDecision, hval, hf]

/-- C2 witness. -/
theorem run_violationsFound_iff_witness :
    baseOpts.pageDescription ≠ "" ∧
    invalidFailImpactsOf (baseOpts.failImpacts.getD DEFAULT_FAIL_IMPACTS) = [] ∧
    failingOf (runA11yTestAndGenerateReports baseOpts sampleResults okEnv).snd =
      (if baseOpts.failOnViolations.getD false ∧
          filterViolationsByImpact sampleResults (baseOpts.failImpacts.getD DEFAULT_FAIL_IMPACTS) ≠ []
       then some (filterViolationsByImpact sampleResults (baseOpts.failImpacts.getD DEFAULT_FAIL_IMPACTS))
       else none) := by
  refine ⟨by decide, by decide, ?_⟩
  exact (run_violationsFound_iff.1 baseOpts sampleResults okEnv (by decide) rfl rfl
    (by decide)).1

/-- C7 counterexample: when the HTML report write throws, the JSON report
(enabled by default) is never attempted and the final fail decision is
not computed — the run aborts with the report-write failure even though
the configuration would have produced a violations-found failure. -/
theorem run_html_write_failure_cex :
    (runA11yTestAndGenerateReports baseOpts sampleResults htmlFailEnv).snd =
      .error (.reportWriteFailure .html) ∧
    (runA11yTestAndGenerateReports baseOpts sampleResults htmlFailEnv).fst.countP
      Event.isJsonWrite = 0 ∧
    baseOpts.generateJsonReport ≠ some false ∧
    baseOpts.failOnViolations = some true ∧
    filterViolationsByImpact sampleResults ["critical"] ≠ [] ∧
    RunError.isViolationsFound (.reportWriteFailure .html) = false := by
  decide

/-- C7 amended: a failing HTML report write aborts the invocation with the
report-write failure: the JSON report is not attempted and the final
fail/return decision is not computed. -/
theorem run_html_write_failure_aborts :
    ∀ (opts : RunA11yOptions) (results : AxeResults) (env : Env),
      opts.pageDescription ≠ "" →
      (results.violations.getD []).length > 0 →
      opts.generateHtmlReport ≠ some false →
      env.htmlWriteOk = false →
      (runA11yTestAndGenerateReports opts results env).snd =
        .error (.reportWriteFailure .html) ∧
      (runA11yTestAndGenerateReports opts results env).fst.countP
        Event.isJsonWrite = 0 := by
  intro opts results env hd hv hflag hfail
  rw [run_of_reportError _ _ _ _ _ hd (reportPhase_html_fail _ _ _ _ hv hflag hfail)]
  refine ⟨rfl, ?_⟩
  by_cases hlog : opts.logSummary = some false <;>
    simp [hlog, List.countP_cons, List.countP_nil, Event.isJsonWrite]

/-- C7 amended witness. -/
theorem run_html_write_failure_aborts_witness :
    baseOpts.pageDescription ≠ "" ∧
    (sampleResults.violations.getD []).length > 0 ∧
    baseOpts.generateHtmlReport ≠ some false ∧
    htmlFailEnv.htmlWriteOk = false ∧
    ((runA11yTestAndGenerateReports baseOpts sampleResults htmlFailEnv).snd =
      .error (.reportWriteFailure .html) ∧
     (runA11yTestAndGenerateReports baseOpts sampleResults htmlFailEnv).fst.countP
       Event.isJsonWrite = 0) := by
  refine ⟨by decide, by decide, by decide, rfl, ?_⟩
  exact run_html_write_failure_aborts baseOpts sampleResults htmlFailEnv
    (by decide) (by decide) (by decide) rfl

/-! ### Filename ordering lemmas (C6) -/

lemma charListLt_irrefl (l : List Char) : charListLt l l = false := by
  induction l with
  | nil => rfl
  | cons c t ih => simp [charListLt, lt_irrefl, ih]

lemma charListLt_cons_same (c : Char) (a b : List Char) (h : charListLt a b = true) :
    charListLt (c :: a) (c :: b) = true := by
  simp [charListLt, lt_irrefl, h]

lemma charListLt_append_left (p a b : List Char) (h : charListLt a b = true) :
    charListLt (p ++ a) (p ++ b) = true := by
  induction p with
  | nil => simpa
  | cons c t ih => simpa [charListLt, lt_irrefl] using ih

lemma charListLt_append_of_lt (a : List Char) : ∀ (b x y : List Char),
    a.length = b.length → charListLt a b = true →
    charListLt (a ++ x) (b ++ y) = true := by
  induction a with
  | nil =>
    intro b x y hlen h
    cases b with
    | nil => simp [charListLt] at h
    | cons d bs => simp at hlen
  | cons c as ih =>
    intro b x y hlen h
    cases b with
    | nil => simp at hlen
    | cons d bs =>
      by_cases hcd : c < d
      · simp [charListLt, hcd]
      · by_cases heq : c = d
        · subst heq
          simp only [charListLt, if_neg hcd, if_pos rfl] at h
          simp only [List.cons_append, charListLt, if_neg hcd, if_pos rfl]
          exact ih bs x y (by simpa using hlen) h
        · simp [charListLt, hcd, heq] at h

lemma padDigits_length (w : Nat) : ∀ n, (padDigits w n).length = w := by
  induction w with
  | zero => intro n; rfl
  | succ w ih => intro n; simp [padDigits, ih]

lemma dChar_lt : ∀ i j : Fin 10, i < j → dChar i < dChar j := by decide

lemma digitChar_lt (a b : Nat) (h : a % 10 < b % 10) : digitChar a < digitChar b :=
  dChar_lt ⟨a % 10, Nat.mod_lt _ (by norm_num)⟩ ⟨b % 10, Nat.mod_lt _ (by norm_num)⟩ h

lemma padDigits_lt : ∀ (w n m : Nat), n < m → m < 10 ^ w →
    charListLt (padDigits w n) (padDigits w m) = true := by
  intro w
  induction w with
  | zero =>
    intro n m h hm
    simp at hm
    omega
  | succ w ih =>
    intro n m h hm
    simp only [padDigits]
    rcases Nat.lt_or_ge (n / 10) (m / 10) with hdiv | hdiv
    · refine charListLt_append_of_lt _ _ _ _ ?_ (ih (n / 10) (m / 10) hdiv ?_)
      · rw [padDigits_length, padDigits_length]
      · apply Nat.div_lt_of_lt_mul
        rw [pow_succ] at hm
        omega
    · have heq : n / 10 = m / 10 :=
        le_antisymm (Nat.div_le_div_right (le_of_lt h)) hdiv
      rw [heq]
      apply charListLt_append_left
      have hmod : n % 10 < m % 10 := by
        have hn := Nat.div_add_mod n 10
        have hm2 := Nat.div_add_mod m 10
        omega
      simp [charListLt, digitChar_lt _ _ hmod]

lemma dChar_not_sep : ∀ i : Fin 10, ¬(dChar i = ':' ∨ dChar i = '.') := by decide

lemma digitChar_not_sep (n : Nat) : ¬(digitChar n = ':' ∨ digitChar n = '.') :=
  dChar_not_sep ⟨n % 10, Nat.mod_lt _ (by norm_num)⟩

lemma map_sep_padDigits (w : Nat) : ∀ n,
    (padDigits w n).map (fun c => if c = ':' ∨ c = '.' then '-' else c) =
      padDigits w n := by
  induction w with
  | zero => intro n; rfl
  | succ w ih =>
    intro n
    simp [padDigits, ih, if_neg (digitChar_not_sep n)]

lemma tsChars_eq (d : DateTime) :
    d.tsChars =
      padDigits 4 d.year ++
        ('-' :: (padDigits 2 d.month ++
          ('-' :: (padDigits 2 d.day ++
            ('T' :: (padDigits 2 d.hour ++
              ('-' :: (padDigits 2 d.minute ++
                ('-' :: (padDigits 2 d.second ++
                  ('-' :: (padDigits 3 d.ms ++ ['Z'])))))))))))) := by
  unfold DateTime.tsChars DateTime.isoChars tsReplace
  simp [List.map_append, map_sep_padDigits]

lemma tsChars_lt (d1 d2 : DateTime) (h1 : d1.Valid) (h2 : d2.Valid) (h : dtLt d1 d2) :
    charListLt d1.tsChars d2.tsChars = true := by
  obtain ⟨hy2, hmo2, hd2, hh2, hmi2, hs2, hms2⟩ := h2
  rw [tsChars_eq, tsChars_eq]
  have hlen4 : ∀ a b : Nat, (padDigits 4 a).length = (padDigits 4 b).length := by
    intro a b; rw [padDigits_length, padDigits_length]
  have hlen2 : ∀ a b : Nat, (padDigits 2 a).length = (padDigits 2 b).length := by
    intro a b; rw [padDigits_length, padDigits_length]
  have hlen3 : ∀ a b : Nat, (padDigits 3 a).length = (padDigits 3 b).length := by
    intro a b; rw [padDigits_length, padDigits_length]
  rcases h with hy | ⟨hy, hmo | ⟨hmo, hd | ⟨hd, hh | ⟨hh, hmi | ⟨hmi, hs | ⟨hs, hms⟩⟩⟩⟩⟩⟩
  · exact charListLt_append_of_lt _ _ _ _ (hlen4 _ _)
      (padDigits_lt 4 _ _ hy (by norm_num at hy2 ⊢; omega))
  · rw [hy]
    refine charListLt_append_left _ _ _ (charListLt_cons_same _ _ _ ?_)
    exact charListLt_append_of_lt _ _ _ _ (hlen2 _ _)
      (padDigits_lt 2 _ _ hmo (by norm_num at hmo2 ⊢; omega))
  · rw [hy, hmo]
    refine charListLt_append_left _ _ _ (charListLt_cons_same _ _ _ ?_)
    refine charListLt_append_left _ _ _ (charListLt_cons_same _ _ _ ?_)
    exact charListLt_append_of_lt _ _ _ _ (hlen2 _ _)
      (padDigits_lt 2 _ _ hd (by norm_num at hd2 ⊢; omega))
  · rw [hy, hmo, hd]
    refine charListLt_append_left _ _ _ (charListLt_cons_same _ _ _ ?_)
    refine charListLt_append_left _ _ _ (charListLt_cons_same _ _ _ ?_)
    refine charListLt_append_left _ _ _ (charListLt_cons_same _ _ _ ?_)
    exact charListLt_append_of_lt _ _ _ _ (hlen2 _ _)
      (padDigits_lt 2 _ _ hh (by norm_num at hh2 ⊢; omega))
  · rw [hy, hmo, hd, hh]
    refine charListLt_append_left _ _ _ (charListLt_cons_same _ _ _ ?_)
    refine charListLt_append_left _ _ _ (charListLt_cons_same _ _ _ ?_)
    refine charListLt_append_left _ _ _ (charListLt_cons_same _ _ _ ?_)
    refine charListLt_append_left _ _ _ (charListLt_cons_same _ _ _ ?_)
    exact charListLt_append_of_lt _ _ _ _ (hlen2 _ _)
      (padDigits_lt 2 _ _ hmi (by norm_num at hmi2 ⊢; omega))
  · rw [hy, hmo, hd, hh, hmi]
    refine charListLt_append_left _ _ _ (charListLt_cons_same _ _ _ ?_)
    refine charListLt_append_left _ _ _ (charListLt_cons_same _ _ _ ?_)
    refine charListLt_append_left _ _ _ (charListLt_cons_same _ _ _ ?_)
    refine charListLt_append_left _ _ _ (charListLt_cons_same _ _ _ ?_)
    refine charListLt_append_left _ _ _ (charListLt_cons_same _ _ _ ?_)
    exact charListLt_append_of_lt _ _ _ _ (hlen2 _ _)
      (padDigits_lt 2 _ _ hs (by norm_num at hs2 ⊢; omega))
  · rw [hy, hmo, hd, hh, hmi, hs]
    refine charListLt_append_left _ _ _ (charListLt_cons_same _ _ _ ?_)
    refine charListLt_append_left _ _ _ (charListLt_cons_same _ _ _ ?_)
    refine charListLt_append_left _ _ _ (charListLt_cons_same _ _ _ ?_)
    refine charListLt_append_left _ _ _ (charListLt_cons_same _ _ _ ?_)
    refine charListLt_append_left _ _ _ (charListLt_cons_same _ _ _ ?_)
    refine charListLt_append_left _ _ _ (charListLt_cons_same _ _ _ ?_)
    exact charListLt_append_of_lt _ _ _ _ (hlen3 _ _)
      (padDigits_lt 3 _ _ hms (by norm_num at hms2 ⊢; omega))

lemma reportBaseName_data (desc : String) (d : DateTime) :
    (reportBaseName desc d).data =
      (normalizeDescription desc).data ++ ('-' :: d.tsChars) := by
  unfold reportBaseName
  simp

/-- C6: the report base name is the page description lower-cased, with
whitespace runs collapsed to single hyphens and characters outside
`[a-z0-9_-]` stripped, followed by a hyphen and the sortable timestamp —
for "My Page! 2024" it is `my-page-2024-<timestamp>` — and two
invocations with the same description at clock readings at least one
resolution unit apart produce distinct base names that sort (byte-wise)
in call order. -/
theorem reportBaseName_normalizes_and_sorts :
    (∀ d : DateTime,
      reportBaseName "My Page! 2024" d = "my-page-2024-" ++ String.mk d.tsChars) ∧
    (∀ (desc : String) (d1 d2 : DateTime), d1.Valid → d2.Valid → dtLt d1 d2 →
      reportBaseName desc d1 ≠ reportBaseName desc d2 ∧
      charListLt (reportBaseName desc d1).data (reportBaseName desc d2).data = true) := by
  constructor
  · intro d
    unfold reportBaseName
    exact congrArg (fun s => s ++ String.mk d.tsChars) (by decide)
  · intro desc d1 d2 h1 h2 hlt
    have hts := tsChars_lt d1 d2 h1 h2 hlt
    have hdata : charListLt (reportBaseName desc d1).data
        (reportBaseName desc d2).data = true := by
      rw [reportBaseName_data, reportBaseName_data]
      exact charListLt_append_left _ _ _ (charListLt_cons_same _ _ _ hts)
    refine ⟨?_, hdata⟩
    intro heq
    rw [heq, charListLt_irrefl] at hdata
    exact Bool.false_ne_true hdata

/-- C6 witness: two valid instants one millisecond apart give distinct,
correctly ordered base names for "My Page! 2024". -/
theorem reportBaseName_normalizes_and_sorts_witness :
    DateTime.Valid ⟨2024, 5, 17, 9, 30, 5, 123⟩ ∧
    DateTime.Valid ⟨2024, 5, 17, 9, 30, 5, 124⟩ ∧
    dtLt ⟨2024, 5, 17, 9, 30, 5, 123⟩ ⟨2024, 5, 17, 9, 30, 5, 124⟩ ∧
    reportBaseName "My Page! 2024" ⟨2024, 5, 17, 9, 30, 5, 123⟩ =
      "my-page-2024-" ++ String.mk (DateTime.tsChars ⟨2024, 5, 17, 9, 30, 5, 123⟩) ∧
    (reportBaseName "My Page! 2024" ⟨2024, 5, 17, 9, 30, 5, 123⟩ ≠
      reportBaseName "My Page! 2024" ⟨2024, 5, 17, 9, 30, 5, 124⟩ ∧
     charListLt (reportBaseName "My Page! 2024" ⟨2024, 5, 17, 9, 30, 5, 123⟩).data
       (reportBaseName "My Page! 2024" ⟨2024, 5, 17, 9, 30, 5, 124⟩).data = true) := by
  refine ⟨by decide, by decide, by decide,
    reportBaseName_normalizes_and_sorts.1 _, ?_⟩
  exact reportBaseName_normalizes_and_sorts.2 "My Page! 2024" _ _
    (by decide) (by decide) (by decide)

/-- C9 witness: a clean scan with both report types disabled still creates
the directory first, and re-creating an existing directory is a no-op. -/
theorem run_mkdir_before_scan_witness :
    baseOpts.pageDescription ≠ "" ∧
    (runA11yTestAndGenerateReports
      { baseOpts with generateHtmlReport := some false, generateJsonReport := some false }
      emptyResults okEnv).fst.take 2 =
      [Event.mkdirRecursive (getArtifactsDir okEnv.cwd baseOpts.outputDir), Event.scan] ∧
    "/proj/artifacts/accessibility" ∈ ["/proj/artifacts/accessibility"] ∧
    fsMkdirRecursive ["/proj/artifacts/accessibility"] "/proj/artifacts/accessibility" =
      ["/proj/artifacts/accessibility"] := by
  refine ⟨by decide, ?_, by simp, ?_⟩
  · exact run_mkdir_before_scan.1 _ emptyResults okEnv (by decide)
  · exact run_mkdir_before_scan.2 _ _ (by simp)

end A11y
